import Mathlib

/-!
Shallow embedding of `scripts/verify_cmake_configs.py`.

The script is a sequential CLI utility: it enumerates configuration
identifiers, invokes `cmake` once per identifier, and reports a summary.
All interaction with the outside world (filesystem queries, `shutil.which`,
`subprocess.run`) is modelled by an explicit environment `Env` of oracles,
and the side effects performed by a run are recorded as an explicit event
trace (`Event`).  Process termination is modelled by `Outcome`:
`Outcome.exit n` is a normal `return n` from `main` (wrapped by
`sys.exit`), `Outcome.parserError msg` is `argparse`'s `parser.error`
(which prints usage plus `msg` and raises `SystemExit(2)`), and
`Outcome.uncaught` is an exception escaping `main` (the interpreter prints
a traceback and the process exits with status 1).
-/

/-- Result of one `subprocess.run` call: either the process could not be
launched at all (`OSError`, e.g. the executable is missing), or it ran to
completion with an exit code and captured output. -/
inductive RunOutcome where
  | launchFail
  | exit (code : Nat) (output : String)
  deriving DecidableEq

/-- Result of `cmake -E capabilities` as consumed by
`query_available_generators`: launch/exit failure (`OSError` or
`CalledProcessError`), undecodable JSON, or a parsed payload.  The payload
is the `"generators"` array reduced to each entry's optional `"name"`
field (`none` when the key is absent). -/
inductive CapOutcome where
  | launchFail
  | badJson
  | payload (entries : List (Option String))
  deriving DecidableEq

/-- One observable side effect of a run, in order of occurrence. -/
inductive Event where
  | queryCapabilities
  | whichLookup (tool : String)
  | rmtree (path : String)
  | mkdir (path : String)
  | runCmake (cmd : List String)
  | printOut (line : String)
  | printErr (line : String)
  deriving DecidableEq

/-- How the process terminates. -/
inductive Outcome where
  | exit (code : Nat)
  | parserError (msg : String)
  | uncaught
  deriving DecidableEq

/-- The process exit status each `Outcome` produces: `sys.exit(n)` for a
normal return, `SystemExit(2)` from `argparse`'s `parser.error`, and
status 1 for an uncaught exception (Python prints a traceback and exits
with 1). -/
def pythonExitStatus : Outcome → Nat
  | Outcome.exit n => n
  | Outcome.parserError _ => 2
  | Outcome.uncaught => 1

/-- The external world as the script observes it: path resolution,
directory queries, directory listings (entry name paired with
`is_file()`), `shutil.which`, the capabilities query, and the behaviour of
each `cmake` configure invocation (keyed by the full argument vector). -/
structure Env where
  resolve : String → String
  isDir : String → Bool
  pathExists : String → Bool
  iterdir : String → List (String × Bool)
  which : String → Option String
  capabilities : CapOutcome
  cmake : List String → RunOutcome

/-- `pathlib` path join: `a / b`. -/
def pjoin (a b : String) : String := a ++ "/" ++ b

/-- Python truthiness of an optional string: `None` and `""` are falsy. -/
def pyTruthy (o : Option String) : Bool :=
  match o with
  | none => false
  | some s => !s.isEmpty

/-- Python truthiness of an optional list: `None` and `[]` are falsy. -/
def pyTruthyList (o : Option (List String)) : Bool :=
  match o with
  | none => false
  | some l => !l.isEmpty

/-- The `GENERATOR_TOOL_HINTS` dict: generator name to the companion
build tool executable it requires. -/
def GENERATOR_TOOL_HINTS (g : String) : Option String :=
  if g = "Ninja" then some "ninja"
  else if g = "Unix Makefiles" then some "make"
  else none

/-- `list_configs(config_root, selection)`: a truthy (non-empty) explicit
selection is returned verbatim; otherwise the names of the regular files
in `config_root`, sorted.  `iterdir` order is irrelevant because of the
sort. -/
def list_configs (env : Env) (config_root : String) (selection : Option (List String)) :
    List String :=
  if pyTruthyList selection then selection.getD []
  else (((env.iterdir config_root).filter (fun e => e.2)).map (fun e => e.1)).insertionSort (· ≤ ·)

/-- `query_available_generators()`: an `OSError`/`CalledProcessError` from
`subprocess.run`, or undecodable JSON, yields the empty set; otherwise the
set of truthy `"name"` fields of the `"generators"` entries.  The Python
set is modelled as a deduplicated list. -/
def query_available_generators (env : Env) : List String :=
  match env.capabilities with
  | CapOutcome.launchFail => []
  | CapOutcome.badJson => []
  | CapOutcome.payload entries =>
      (((entries.filterMap id).filter (fun n => !n.isEmpty)).dedup)

/-- The `cmake` argument vector built by `configure_config`. -/
def configureCmd (source_dir build_dir config : String) (generator : Option String) :
    List String :=
  let base := ["cmake", "-S", source_dir, "-B", build_dir, "-DTRDP_CONFIG=" ++ config]
  if pyTruthy generator then base ++ ["-G", generator.getD ""] else base

/-- `configure_config`: creates the per-config build directory, runs
`cmake` with `check=True` and combined output.  A `CalledProcessError`
(non-zero exit) is caught and becomes `.ok (false, output)`; an `OSError`
(launch failure) is NOT caught by this function and propagates, modelled
as `.error ()`.  The returned event list records the `mkdir` and the
invocation attempt. -/
def configure_config (env : Env) (source_dir build_root config : String)
    (generator : Option String) : List Event × Except Unit (Bool × String) :=
  let build_dir := pjoin build_root config
  let cmd := configureCmd source_dir build_dir config generator
  match env.cmake cmd with
  | RunOutcome.launchFail => ([Event.mkdir build_dir, Event.runCmake cmd], Except.error ())
  | RunOutcome.exit code out =>
      ([Event.mkdir build_dir, Event.runCmake cmd], Except.ok (code == 0, out))

/-- Accumulated result of the per-config loop in `main` (lines 167-174):
the event trace, the `successes` and `failures` accumulators, and whether
an uncaught exception aborted the loop (in which case the accumulators
are lost with the stack frame). -/
structure LoopResult where
  events : List Event
  successes : List String
  failures : List (String × String)
  aborted : Bool
  deriving DecidableEq

/-- The `for cfg in configs` loop of `main`: print the header, call
`configure_config`, print its output, and append to `successes` or
`failures`.  An uncaught `OSError` from `configure_config` aborts the
loop (and the whole process) immediately. -/
def runLoop (env : Env) (source_dir build_root : String) (generator : Option String) :
    List String → LoopResult
  | [] => ⟨[], [], [], false⟩
  | cfg :: rest =>
    let step := configure_config env source_dir build_root cfg generator
    match step.2 with
    | Except.error _ =>
        ⟨[Event.printOut ("\n=== " ++ cfg ++ " ===")] ++ step.1, [], [], true⟩
    | Except.ok (ok, out) =>
        let r := runLoop env source_dir build_root generator rest
        ⟨[Event.printOut ("\n=== " ++ cfg ++ " ===")] ++ step.1
           ++ [Event.printOut out.trim] ++ r.events,
         if ok then cfg :: r.successes else r.successes,
         if ok then r.failures else (cfg, out) :: r.failures,
         r.aborted⟩

/-- `", ".join`. -/
def joinComma : List String → String
  | [] => ""
  | [x] => x
  | x :: y :: xs => x ++ ", " ++ joinComma (y :: xs)

/-- `", ".join(sorted(generators)) or "unknown"`. -/
def availableStr (gens : List String) : String :=
  let j := joinComma (gens.insertionSort (· ≤ ·))
  if j.isEmpty then "unknown" else j

/-- The `parser.error` message for an unavailable generator; it lists the
discovered alternatives. -/
def unsupportedMsg (g : String) (gens : List String) : String :=
  "Requested CMake generator \x27" ++ g ++ "\x27 is not available. Install the matching build "
    ++ "tool or omit --generator to let CMake choose a default.\n"
    ++ "Available generators: " ++ availableStr gens

/-- The `parser.error` message for a missing companion build tool. -/
def missingToolMsg (g t : String) : String :=
  "Requested CMake generator \x27" ++ g ++ "\x27 requires the \x27" ++ t
    ++ "\x27 executable, which was not found in PATH. Install it or omit --generator to "
    ++ "use the default."

/-- The `parser.error` message for a missing config directory. -/
def dirMsg (p : String) : String :=
  "Config directory \x27" ++ p ++ "\x27 does not exist"

/-- The progress banner printed before the loop. -/
def testingMsg (n : Nat) : String := "Testing " ++ toString n ++ " configurations..."

/-- The hint printed when at least one configuration failed. -/
def hintMsg : String :=
  "\nThe failing configurations typically require vendor-specific toolchains "
    ++ "or environment variables.  Inspect the output above for details."

/-- Parsed command-line arguments (after `argparse`). -/
structure Args where
  configs : List String
  sourceDir : String
  configRoot : Option String
  buildRoot : String
  generator : Option String
  clean : Bool

/-- The generator precondition block of `main` (lines 129-146): when a
truthy `--generator` was given, query the capabilities; abort when the
reported set is non-empty and lacks the generator, or when the generator's
hinted companion tool is not on `PATH`.  Returns the events performed and
`some msg` when `parser.error(msg)` fired. -/
def generatorCheck (env : Env) (generator : Option String) : List Event × Option String :=
  if pyTruthy generator then
    let g := generator.getD ""
    let gens := query_available_generators env
    if gens ≠ [] ∧ g ∉ gens then
      ([Event.queryCapabilities], some (unsupportedMsg g gens))
    else
      match GENERATOR_TOOL_HINTS g with
      | some tool =>
          if env.which tool = none then
            ([Event.queryCapabilities, Event.whichLookup tool], some (missingToolMsg g tool))
          else
            ([Event.queryCapabilities, Event.whichLookup tool], none)
      | none => ([Event.queryCapabilities], none)
  else ([], none)

/-- `source_dir = args.source_dir.resolve()`. -/
def effSourceDir (env : Env) (args : Args) : String := env.resolve args.sourceDir

/-- `config_root = (args.config_root or (source_dir / "config")).resolve()`. -/
def effConfigRoot (env : Env) (args : Args) : String :=
  env.resolve (match args.configRoot with
    | some p => p
    | none => pjoin (effSourceDir env args) "config")

/-- `build_root = args.build_root.resolve()`. -/
def effBuildRoot (env : Env) (args : Args) : String := env.resolve args.buildRoot

/-- The identifier list `main` iterates over. -/
def mainConfigs (env : Env) (args : Args) : List String :=
  list_configs env (effConfigRoot env args) (some args.configs)

/-- The result of `main`'s per-config loop. -/
def mainRun (env : Env) (args : Args) : LoopResult :=
  runLoop env (effSourceDir env args) (effBuildRoot env args) args.generator
    (mainConfigs env args)

/-- The summary block printed after the loop (lines 176-183). -/
def summaryEvents (succ : List String) (fails : List (String × String)) : List Event :=
  [Event.printOut "\nSummary", Event.printOut "-------",
   Event.printOut ("Succeeded: " ++ toString succ.length)]
  ++ succ.map (fun c => Event.printOut ("  - " ++ c))
  ++ [Event.printOut ("Failed:    " ++ toString fails.length)]
  ++ fails.map (fun p => Event.printOut ("  - " ++ p.1))

/-- `main(argv)` after argument parsing: the generator precondition, the
config-directory check, the optional `--clean` wipe, enumeration, the
per-config loop, and the summary/exit-code policy. -/
def mainRoutine (env : Env) (args : Args) : Outcome × List Event :=
  match (generatorCheck env args.generator).2 with
  | some msg => (Outcome.parserError msg, (generatorCheck env args.generator).1)
  | none =>
    if env.isDir (effConfigRoot env args) then
      let cleanEvs := if args.clean && env.pathExists (effBuildRoot env args)
        then [Event.rmtree (effBuildRoot env args)] else []
      let configs := mainConfigs env args
      if configs.isEmpty then
        (Outcome.exit 1, (generatorCheck env args.generator).1 ++ cleanEvs
          ++ [Event.printErr "No configuration files found"])
      else
        let r := mainRun env args
        let evs := (generatorCheck env args.generator).1 ++ cleanEvs
          ++ [Event.printOut (testingMsg configs.length)] ++ r.events
        if r.aborted then (Outcome.uncaught, evs)
        else if r.failures.isEmpty then
          (Outcome.exit 0, evs ++ summaryEvents r.successes r.failures)
        else
          (Outcome.exit 1, evs ++ summaryEvents r.successes r.failures
            ++ [Event.printOut hintMsg])
    else
      (Outcome.parserError (dirMsg (effConfigRoot env args)),
       (generatorCheck env args.generator).1)

/-- The process exit status of a full run. -/
def mainStatus (env : Env) (args : Args) : Nat := pythonExitStatus (mainRoutine env args).1

/-- Whether the generator precondition block passed without `parser.error`. -/
def genCheckPasses (env : Env) (args : Args) : Bool :=
  ((generatorCheck env args.generator).2).isNone

/-- Is this event a `cmake` configure invocation? -/
def Event.isRun : Event → Bool
  | Event.runCmake _ => true
  | _ => false

/-- Is this event a removal of a directory tree? -/
def Event.isRmtree : Event → Bool
  | Event.rmtree _ => true
  | _ => false

/-- Is this event a directory creation? -/
def Event.isMkdir : Event → Bool
  | Event.mkdir _ => true
  | _ => false

/-- Number of `cmake` configure invocations in a trace. -/
def invocationCount (t : List Event) : Nat := t.countP Event.isRun

/-- Number of `shutil.rmtree` calls in a trace. -/
def rmtreeCount (t : List Event) : Nat := t.countP Event.isRmtree

/-- The recorded outcome of one config, as `main` classifies it: `true`
when `configure_config` reported success, `false` when it reported
failure; a propagating exception yields no classification and is treated
separately. -/
def configOk (env : Env) (source_dir build_root : String) (generator : Option String)
    (config : String) : Bool :=
  match (configure_config env source_dir build_root config generator).2 with
  | Except.ok (ok, _) => ok
  | Except.error _ => false

/-! ### Concrete environments and argument vectors used as test inputs -/

/-- An environment whose `cmake` executable cannot be launched at all. -/
def envLaunchFail : Env :=
  ⟨id, fun _ => true, fun _ => false, fun _ => [], fun _ => none,
   CapOutcome.launchFail, fun _ => RunOutcome.launchFail⟩

/-- An environment where every `cmake` configure run exits with status 1. -/
def envFail1 : Env :=
  ⟨id, fun _ => true, fun _ => false, fun _ => [("b", true), ("a", true)], fun _ => none,
   CapOutcome.badJson, fun _ => RunOutcome.exit 1 "err"⟩

/-- An environment where every `cmake` configure run succeeds; the config
root holds one regular file `a` and a subdirectory `d`. -/
def envOk : Env :=
  ⟨id, fun _ => true, fun _ => false, fun _ => [("a", true), ("d", false)],
   fun _ => some "/usr/bin/tool", CapOutcome.payload [], fun _ => RunOutcome.exit 0 "done"⟩

/-- An environment whose config root is not a directory. -/
def envNoDir : Env :=
  ⟨id, fun _ => false, fun _ => false, fun _ => [], fun _ => none,
   CapOutcome.badJson, fun _ => RunOutcome.launchFail⟩

/-- Default arguments: no explicit configs, no generator, no clean. -/
def args0 : Args := ⟨[], ".", none, "bld", none, false⟩

/-! ### C5 -/

/-- Claim C5: `list_configs` returns a supplied (non-empty) explicit
identifier list verbatim and in the caller order; with no explicit list it
returns the names of exactly the regular files in the config root, sorted
lexicographically. -/
theorem C5_list_configs (env : Env) (cr : String) (sel : List String) (h : sel ≠ []) :
    list_configs env cr (some sel) = sel ∧
    (list_configs env cr none).Sorted (· ≤ ·) ∧
    (list_configs env cr none).Perm
      (((env.iterdir cr).filter (fun e => e.2)).map (fun e => e.1)) := by
  refine ⟨?_, ?_, ?_⟩
  · cases sel with
    | nil => exact absurd rfl h
    | cons a l => simp [list_configs, pyTruthyList]
  · simpa [list_configs, pyTruthyList] using
      List.sorted_insertionSort (α := String) (· ≤ ·)
        (((env.iterdir cr).filter (fun e => e.2)).map (fun e => e.1))
  · simpa [list_configs, pyTruthyList] using
      List.perm_insertionSort (α := String) (· ≤ ·)
        (((env.iterdir cr).filter (fun e => e.2)).map (fun e => e.1))

/-- Witness for C5 at a concrete environment and selection. -/
theorem C5_witness :
    ((["x"] : List String) ≠ []) ∧
    (list_configs envOk "cr" (some ["x"]) = ["x"] ∧
     (list_configs envOk "cr" none).Sorted (· ≤ ·) ∧
     (list_configs envOk "cr" none).Perm
       (((envOk.iterdir "cr").filter (fun e => e.2)).map (fun e => e.1))) :=
  ⟨by decide, C5_list_configs envOk "cr" ["x"] (by decide)⟩

/-! ### C10 -/

/-- Claim C10: an explicitly supplied but empty identifier list is treated
exactly like supplying no list at all — `list_configs` falls back to
enumerating the config root rather than returning the empty list
verbatim. -/
theorem C10_empty_selection (env : Env) (cr : String) :
    list_configs env cr (some []) = list_configs env cr none := by
  simp [list_configs, pyTruthyList]

/-! ### C1 -/

/-- Counterexample to claim C1 as stated: when the external tool cannot be
launched (`OSError`), `configure_config` does NOT return a failure result
— the exception propagates (`.error ()`), the run is aborted, and the
remaining identifier `b` is never processed (no result, success or
failure, is recorded for either identifier). -/
theorem C1_counterexample :
    (configure_config envLaunchFail "src" "bld" "a" none).2 = Except.error () ∧
    (runLoop envLaunchFail "src" "bld" none ["a", "b"]).aborted = true ∧
    (runLoop envLaunchFail "src" "bld" none ["a", "b"]).successes = [] ∧
    (runLoop envLaunchFail "src" "bld" none ["a", "b"]).failures = [] :=
  ⟨rfl, rfl, rfl, rfl⟩

/-- Claim C1 amended: only a non-zero exit status of the external tool is
converted into a failure result; in that case `configure_config` returns
`(false, output)` instead of raising, the failure is recorded, and the
loop continues to the remaining identifiers unchanged.  (A launch failure,
by contrast, propagates as an exception and aborts the run, as the
counterexample shows.) -/
theorem C1_amended (env : Env) (s b cfg : String) (g : Option String) (rest : List String)
    (code : Nat) (out : String)
    (h : env.cmake (configureCmd s (pjoin b cfg) cfg g) = RunOutcome.exit code out)
    (hc : code ≠ 0) :
    (configure_config env s b cfg g).2 = Except.ok (false, out) ∧
    (runLoop env s b g (cfg :: rest)).aborted = (runLoop env s b g rest).aborted ∧
    (runLoop env s b g (cfg :: rest)).successes = (runLoop env s b g rest).successes ∧
    (runLoop env s b g (cfg :: rest)).failures
      = (cfg, out) :: (runLoop env s b g rest).failures := by
  have hbeq : (code == 0) = false := by
    simpa using hc
  refine ⟨?_, ?_, ?_, ?_⟩ <;> simp [runLoop, configure_config, h, hbeq]

/-- Witness for C1's amended claim at a concrete failing environment. -/
theorem C1_witness :
    (envFail1.cmake (configureCmd "s" (pjoin "b" "a") "a" none) = RunOutcome.exit 1 "err") ∧
    ((1 : Nat) ≠ 0) ∧
    ((configure_config envFail1 "s" "b" "a" none).2 = Except.ok (false, "err") ∧
     (runLoop envFail1 "s" "b" none ["a", "c"]).aborted
       = (runLoop envFail1 "s" "b" none ["c"]).aborted ∧
     (runLoop envFail1 "s" "b" none ["a", "c"]).successes
       = (runLoop envFail1 "s" "b" none ["c"]).successes ∧
     (runLoop envFail1 "s" "b" none ["a", "c"]).failures
       = ("a", "err") :: (runLoop envFail1 "s" "b" none ["c"]).failures) :=
  ⟨rfl, by decide, C1_amended envFail1 "s" "b" "a" none ["c"] 1 "err" rfl (by decide)⟩

/-! ### C4 -/

/-- Counterexample to claim C4 as stated: with three enumerated
identifiers and a `cmake` that cannot be launched, the run records zero
results instead of three — the uncaught `OSError` skips the remaining
identifiers. -/
theorem C4_counterexample :
    (runLoop envLaunchFail "s" "b" none ["a", "b", "c"]).successes.length
      + (runLoop envLaunchFail "s" "b" none ["a", "b", "c"]).failures.length = 0 ∧
    (["a", "b", "c"] : List String).length = 3 :=
  ⟨rfl, rfl⟩

/-- Claim C4 amended: provided every `cmake` invocation can at least be
launched (no `OSError`), the loop produces exactly one result per
identifier — the successes are exactly the identifiers whose run
succeeded, in enumeration order, the failed identifiers are exactly the
rest, in enumeration order, and the result count equals the identifier
count. -/
theorem C4_amended (env : Env) (s b : String) (g : Option String) (cfgs : List String)
    (h : ∀ cmd, env.cmake cmd ≠ RunOutcome.launchFail) :
    (runLoop env s b g cfgs).aborted = false ∧
    (runLoop env s b g cfgs).successes = cfgs.filter (fun c => configOk env s b g c) ∧
    (runLoop env s b g cfgs).failures.map Prod.fst
      = cfgs.filter (fun c => !configOk env s b g c) ∧
    (runLoop env s b g cfgs).successes.length + (runLoop env s b g cfgs).failures.length
      = cfgs.length := by
  induction cfgs with
  | nil => simp [runLoop]
  | cons cfg rest ih =>
    obtain ⟨ih1, ih2, ih3, ih4⟩ := ih
    cases hc : env.cmake (configureCmd s (pjoin b cfg) cfg g) with
    | launchFail => exact absurd hc (h _)
    | exit code out =>
      cases hok : (code == 0) with
      | true =>
        refine ⟨?_, ?_, ?_, ?_⟩
        · simp [runLoop, configure_config, hc, hok, ih1]
        · simp [runLoop, configure_config, configOk, hc, hok, ih2]
        · simp [runLoop, configure_config, configOk, hc, hok, ih3]
        · simp [runLoop, configure_config, hc, hok]
          omega
      | false =>
        refine ⟨?_, ?_, ?_, ?_⟩
        · simp [runLoop, configure_config, hc, hok, ih1]
        · simp [runLoop, configure_config, configOk, hc, hok, ih2]
        · simp [runLoop, configure_config, configOk, hc, hok, ih3]
        · simp [runLoop, configure_config, hc, hok]
          omega

/-- Witness for C4's amended claim at a concrete all-success environment. -/
theorem C4_witness :
    (∀ cmd, envOk.cmake cmd ≠ RunOutcome.launchFail) ∧
    ((runLoop envOk "s" "b" none ["a", "b"]).aborted = false ∧
     (runLoop envOk "s" "b" none ["a", "b"]).successes
       = (["a", "b"] : List String).filter (fun c => configOk envOk "s" "b" none c) ∧
     (runLoop envOk "s" "b" none ["a", "b"]).failures.map Prod.fst
       = (["a", "b"] : List String).filter (fun c => !configOk envOk "s" "b" none c) ∧
     (runLoop envOk "s" "b" none ["a", "b"]).successes.length
       + (runLoop envOk "s" "b" none ["a", "b"]).failures.length
       = (["a", "b"] : List String).length) :=
  ⟨fun _ h => RunOutcome.noConfusion h,
   C4_amended envOk "s" "b" none ["a", "b"] (fun _ h => RunOutcome.noConfusion h)⟩

/-! ### C2 -/

/-- Counterexample to claim C2 as stated: with a non-existent config
directory the process does not exit with status 1 — `parser.error` raises
`SystemExit(2)`, so the exit status is 2. -/
theorem C2_counterexample :
    mainStatus envNoDir args0 = 2 ∧ mainStatus envNoDir args0 ≠ 1 :=
  ⟨rfl, by decide⟩

/-- Claim C2 amended: the exit status is 0 exactly when the generator
precondition passed, the config directory exists, at least one identifier
was enumerated, no invocation aborted the loop, and every identifier
succeeded.  A per-identifier failure, zero identifiers, or a mid-run
launch failure give status 1.  A missing config directory or a failed
generator/tool-availability precondition abort through `parser.error`,
which exits with status 2, not 1. -/
theorem C2_amended (env : Env) (args : Args) :
    (mainStatus env args = 0 ↔
      (genCheckPasses env args = true ∧ env.isDir (effConfigRoot env args) = true ∧
       mainConfigs env args ≠ [] ∧ (mainRun env args).aborted = false ∧
       (mainRun env args).failures = [])) ∧
    (mainStatus env args = 2 ↔
      (genCheckPasses env args = false ∨
       (genCheckPasses env args = true ∧ env.isDir (effConfigRoot env args) = false))) ∧
    (mainStatus env args = 1 ↔
      (genCheckPasses env args = true ∧ env.isDir (effConfigRoot env args) = true ∧
       (mainConfigs env args = [] ∨ (mainRun env args).aborted = true ∨
        (mainRun env args).failures ≠ []))) := by
  cases hg : (generatorCheck env args.generator).2 with
  | some msg =>
      simp [mainStatus, mainRoutine, hg, pythonExitStatus, genCheckPasses]
  | none =>
      cases hd : env.isDir (effConfigRoot env args) with
      | false =>
          simp [mainStatus, mainRoutine, hg, hd, pythonExitStatus, genCheckPasses]
      | true =>
          cases hc : mainConfigs env args with
          | nil =>
              simp [mainStatus, mainRoutine, hg, hd, hc, pythonExitStatus, genCheckPasses]
          | cons x xs =>
              cases ha : (mainRun env args).aborted with
              | true =>
                  simp [mainStatus, mainRoutine, hg, hd, hc, ha, pythonExitStatus,
                    genCheckPasses]
              | false =>
                  cases hf : (mainRun env args).failures with
                  | nil =>
                      simp [mainStatus, mainRoutine, hg, hd, hc, ha, hf, pythonExitStatus,
                        genCheckPasses]
                  | cons p ps =>
                      simp [mainStatus, mainRoutine, hg, hd, hc, ha, hf, pythonExitStatus,
                        genCheckPasses]

/-! ### Shared helper lemmas -/

/-- A non-empty string is truthy. -/
theorem isEmpty_false_of_ne (s : String) (h : s ≠ "") : s.isEmpty = false :=
  Bool.eq_false_iff.mpr (fun hh => h ((String.isEmpty_iff s).mp hh))

/-- Shape of the generator precondition's event trace. -/
theorem generatorCheck_events (env : Env) (g : Option String) :
    (generatorCheck env g).1 = [] ∨ (generatorCheck env g).1 = [Event.queryCapabilities] ∨
    ∃ t, (generatorCheck env g).1
      = [Event.queryCapabilities, Event.whichLookup t] := by
  cases g with
  | none => exact Or.inl (by simp [generatorCheck, pyTruthy])
  | some s =>
    by_cases hs : s.isEmpty = true
    · exact Or.inl (by simp [generatorCheck, pyTruthy, hs])
    · have hs2 : s.isEmpty = false := Bool.eq_false_iff.mpr hs
      by_cases hcond : query_available_generators env ≠ [] ∧ s ∉ query_available_generators env
      · exact Or.inr (Or.inl (by simp [generatorCheck, pyTruthy, hs2, hcond]))
      · cases ht : GENERATOR_TOOL_HINTS s with
        | none =>
            exact Or.inr (Or.inl (by simp [generatorCheck, pyTruthy, hs2, hcond, ht]))
        | some t =>
            refine Or.inr (Or.inr ⟨t, ?_⟩)
            by_cases hw : env.which t = none
            · simp [generatorCheck, pyTruthy, hs2, hcond, ht, hw]
            · simp [generatorCheck, pyTruthy, hs2, hcond, ht, hw]

/-- The generator precondition performs no configure invocation. -/
theorem invocationCount_generatorCheck (env : Env) (g : Option String) :
    invocationCount (generatorCheck env g).1 = 0 := by
  rcases generatorCheck_events env g with h | h | ⟨t, h⟩ <;>
    simp [h, invocationCount, List.countP_cons, Event.isRun]

/-- The per-config loop never removes a directory tree. -/
theorem rmtree_not_mem_runLoop (env : Env) (s b : String) (g : Option String)
    (cfgs : List String) (p : String) :
    Event.rmtree p ∉ (runLoop env s b g cfgs).events := by
  induction cfgs with
  | nil => simp [runLoop]
  | cons cfg rest ih =>
    cases hc : env.cmake (configureCmd s (pjoin b cfg) cfg g) with
    | launchFail => simp [runLoop, configure_config, hc]
    | exit code out => simp [runLoop, configure_config, hc, ih]

/-- The summary block never removes a directory tree. -/
theorem rmtree_not_mem_summary (succ : List String) (fails : List (String × String))
    (p : String) : Event.rmtree p ∉ summaryEvents succ fails := by
  simp [summaryEvents]

/-- With a truthy generator, a non-empty reported capability set lacking
it makes the precondition abort with the unsupported-generator message. -/
theorem generatorCheck_unsupported (env : Env) (g : String) (hne : g ≠ "")
    (h1 : query_available_generators env ≠ [])
    (h2 : g ∉ query_available_generators env) :
    generatorCheck env (some g)
      = ([Event.queryCapabilities],
         some (unsupportedMsg g (query_available_generators env))) := by
  simp [generatorCheck, pyTruthy, isEmpty_false_of_ne g hne, h1, h2]

/-- With a truthy generator that passes the capability check but whose
hinted companion tool is missing, the precondition aborts with the
missing-tool message. -/
theorem generatorCheck_missingTool (env : Env) (g t : String) (hne : g ≠ "")
    (hor : query_available_generators env = [] ∨ g ∈ query_available_generators env)
    (ht : GENERATOR_TOOL_HINTS g = some t) (hw : env.which t = none) :
    generatorCheck env (some g)
      = ([Event.queryCapabilities, Event.whichLookup t], some (missingToolMsg g t)) := by
  have hcond : ¬(query_available_generators env ≠ [] ∧ g ∉ query_available_generators env) := by
    rcases hor with h | h
    · exact fun hc => hc.1 h
    · exact fun hc => hc.2 h
  simp [generatorCheck, pyTruthy, isEmpty_false_of_ne g hne, hcond, ht, hw]

/-! ### C3 -/

/-- Arguments with an explicit identifier list. -/
def args3 : Args := ⟨["x", "y"], ".", none, "bld", none, false⟩

/-- Counterexample to claim C3 as stated: with the explicit identifier
list `["x", "y"]` and a non-existent config directory, the run still
aborts through `parser.error` with the directory message and performs no
invocation — the explicit list does not bypass the existence check. -/
theorem C3_counterexample :
    (mainRoutine envNoDir args3).1 = Outcome.parserError (dirMsg "./config") ∧
    invocationCount (mainRoutine envNoDir args3).2 = 0 :=
  ⟨rfl, rfl⟩

/-- Claim C3 amended: whenever the generator precondition passes and the
config root is not a directory, the run aborts through `parser.error`
before any invocation — whether or not an explicit identifier list was
given (the explicit list bypasses only the enumeration of the directory
contents, not the existence check). -/
theorem C3_amended (env : Env) (args : Args)
    (hg : genCheckPasses env args = true)
    (hd : env.isDir (effConfigRoot env args) = false) :
    (mainRoutine env args).1 = Outcome.parserError (dirMsg (effConfigRoot env args)) ∧
    invocationCount (mainRoutine env args).2 = 0 := by
  have h2 : (generatorCheck env args.generator).2 = none :=
    Option.isNone_iff_eq_none.mp hg
  constructor
  · simp [mainRoutine, h2, hd]
  · have : (mainRoutine env args).2 = (generatorCheck env args.generator).1 := by
      simp [mainRoutine, h2, hd]
    rw [this]
    exact invocationCount_generatorCheck env args.generator

/-- Witness for C3's amended claim: an explicit list plus a missing
directory. -/
theorem C3_witness :
    genCheckPasses envNoDir args3 = true ∧
    envNoDir.isDir (effConfigRoot envNoDir args3) = false ∧
    ((mainRoutine envNoDir args3).1
       = Outcome.parserError (dirMsg (effConfigRoot envNoDir args3)) ∧
     invocationCount (mainRoutine envNoDir args3).2 = 0) :=
  ⟨rfl, rfl, C3_amended envNoDir args3 rfl rfl⟩

/-! ### C6 -/

/-- Arguments forcing the generator `Foo` (which has no tool hint). -/
def args6 : Args := ⟨[], ".", none, "bld", some "Foo", false⟩

/-- Counterexample to claim C6 as stated: in `envOk` the capability query
succeeds and reports an empty generator set, so the requested generator
`Foo` is certainly absent from it — yet the run does not abort: it
performs one configure invocation and exits 0, because the emptiness of
the reported set disables the check. -/
theorem C6_counterexample :
    ("Foo" ∉ query_available_generators envOk) ∧
    (mainRoutine envOk args6).1 = Outcome.exit 0 ∧
    invocationCount (mainRoutine envOk args6).2 = 1 :=
  ⟨by decide, rfl, rfl⟩

/-- Claim C6 amended: when the reported capability set is non-empty and
the requested generator is absent from it, the run aborts through
`parser.error` before any invocation, with a message listing the
available alternatives; a reported set that comes back empty disables the
check. -/
theorem C6_amended (env : Env) (args : Args) (g : String)
    (hg : args.generator = some g) (hne : g ≠ "")
    (h1 : query_available_generators env ≠ [])
    (h2 : g ∉ query_available_generators env) :
    (mainRoutine env args).1
      = Outcome.parserError (unsupportedMsg g (query_available_generators env)) ∧
    invocationCount (mainRoutine env args).2 = 0 := by
  have hgen := generatorCheck_unsupported env g hne h1 h2
  constructor
  · simp [mainRoutine, hg, hgen]
  · simp [mainRoutine, hg, hgen, invocationCount, List.countP_cons, Event.isRun]

/-- Environment whose capability query reports exactly `{"Ninja"}`. -/
def envCapsNinja : Env :=
  ⟨id, fun _ => true, fun _ => false, fun _ => [], fun _ => none,
   CapOutcome.payload [some "Ninja"], fun _ => RunOutcome.exit 0 "done"⟩

/-- Witness for C6's amended claim. -/
theorem C6_witness :
    (args6.generator = some "Foo") ∧ ("Foo" ≠ "") ∧
    (query_available_generators envCapsNinja ≠ []) ∧
    ("Foo" ∉ query_available_generators envCapsNinja) ∧
    ((mainRoutine envCapsNinja args6).1
       = Outcome.parserError (unsupportedMsg "Foo" (query_available_generators envCapsNinja)) ∧
     invocationCount (mainRoutine envCapsNinja args6).2 = 0) :=
  ⟨rfl, by decide, by decide, by decide,
   C6_amended envCapsNinja args6 "Foo" rfl (by decide) (by decide) (by decide)⟩

/-! ### C7 -/

/-- Claim C7: when the requested generator has a hinted companion build
tool and that tool is not locatable on `PATH`, the run aborts through
`parser.error` before any per-identifier configure invocation. -/
theorem C7_missing_tool (env : Env) (args : Args) (g t : String)
    (hg : args.generator = some g) (hne : g ≠ "")
    (ht : GENERATOR_TOOL_HINTS g = some t) (hw : env.which t = none) :
    (∃ msg, (mainRoutine env args).1 = Outcome.parserError msg) ∧
    invocationCount (mainRoutine env args).2 = 0 := by
  by_cases hcond : query_available_generators env ≠ [] ∧ g ∉ query_available_generators env
  · have hgen := generatorCheck_unsupported env g hne hcond.1 hcond.2
    constructor
    · exact ⟨unsupportedMsg g (query_available_generators env),
        by simp [mainRoutine, hg, hgen]⟩
    · simp [mainRoutine, hg, hgen, invocationCount, List.countP_cons, Event.isRun]
  · have hor : query_available_generators env = [] ∨ g ∈ query_available_generators env := by
      rcases not_and_or.mp hcond with h | h
      · exact Or.inl (not_not.mp h)
      · exact Or.inr (not_not.mp h)
    have hgen := generatorCheck_missingTool env g t hne hor ht hw
    constructor
    · exact ⟨missingToolMsg g t, by simp [mainRoutine, hg, hgen]⟩
    · simp [mainRoutine, hg, hgen, invocationCount, List.countP_cons, Event.isRun]

/-- Arguments forcing the generator `Ninja`. -/
def args7 : Args := ⟨[], ".", none, "bld", some "Ninja", false⟩

/-- Environment with no executables on `PATH` and an empty capability set. -/
def envNoTools : Env :=
  ⟨id, fun _ => true, fun _ => false, fun _ => [("a", true)], fun _ => none,
   CapOutcome.payload [], fun _ => RunOutcome.exit 0 "done"⟩

/-- Witness for C7: `--generator Ninja` with `ninja` missing from `PATH`. -/
theorem C7_witness :
    (args7.generator = some "Ninja") ∧ ("Ninja" ≠ "") ∧
    (GENERATOR_TOOL_HINTS "Ninja" = some "ninja") ∧
    (envNoTools.which "ninja" = none) ∧
    ((∃ msg, (mainRoutine envNoTools args7).1 = Outcome.parserError msg) ∧
     invocationCount (mainRoutine envNoTools args7).2 = 0) :=
  ⟨rfl, by decide, by decide, rfl,
   C7_missing_tool envNoTools args7 "Ninja" "ninja" rfl (by decide) (by decide) rfl⟩

/-! ### C8 -/

/-- Claim C8: with an existing but empty config root and no explicit
identifiers (and no forced generator), the run prints the diagnostic to
the error stream, performs zero configure invocations, and returns 1. -/
theorem C8_no_configs (env : Env) (args : Args)
    (hg : args.generator = none)
    (hd : env.isDir (effConfigRoot env args) = true)
    (hc : args.configs = [])
    (he : env.iterdir (effConfigRoot env args) = []) :
    (mainRoutine env args).1 = Outcome.exit 1 ∧
    Event.printErr "No configuration files found" ∈ (mainRoutine env args).2 ∧
    invocationCount (mainRoutine env args).2 = 0 := by
  have hgen : generatorCheck env args.generator = ([], none) := by
    simp [generatorCheck, hg, pyTruthy]
  have hcfg : mainConfigs env args = [] := by
    simp [mainConfigs, list_configs, pyTruthyList, hc, he]
  cases hcl : (args.clean && env.pathExists (effBuildRoot env args)) with
  | false =>
      refine ⟨?_, ?_, ?_⟩ <;>
        simp [mainRoutine, hgen, hd, hcfg, hcl, invocationCount, List.countP_cons,
          Event.isRun]
  | true =>
      refine ⟨?_, ?_, ?_⟩ <;>
        simp [mainRoutine, hgen, hd, hcfg, hcl, invocationCount, List.countP_cons,
          Event.isRun]

/-- Environment with an existing, empty config root. -/
def envEmptyDir : Env :=
  ⟨id, fun _ => true, fun _ => false, fun _ => [], fun _ => none,
   CapOutcome.badJson, fun _ => RunOutcome.exit 0 "done"⟩

/-- Witness for C8 at a concrete empty config root. -/
theorem C8_witness :
    (args0.generator = none) ∧
    (envEmptyDir.isDir (effConfigRoot envEmptyDir args0) = true) ∧
    (args0.configs = []) ∧
    (envEmptyDir.iterdir (effConfigRoot envEmptyDir args0) = []) ∧
    ((mainRoutine envEmptyDir args0).1 = Outcome.exit 1 ∧
     Event.printErr "No configuration files found" ∈ (mainRoutine envEmptyDir args0).2 ∧
     invocationCount (mainRoutine envEmptyDir args0).2 = 0) :=
  ⟨rfl, rfl, rfl, rfl, C8_no_configs envEmptyDir args0 rfl rfl rfl rfl⟩

/-! ### C9 -/

/-- Claim C9: in a run that reaches the clean step (generator check and
directory check pass), `--clean` with an existing build root removes the
entire build root as the very first side effect, before any identifier is
processed; without `--clean` no directory tree is ever removed, so the
build root is left untouched before the run. -/
theorem C9_clean (env : Env) (args : Args)
    (hg : args.generator = none)
    (hd : env.isDir (effConfigRoot env args) = true) :
    (args.clean = true → env.pathExists (effBuildRoot env args) = true →
      (mainRoutine env args).2.head? = some (Event.rmtree (effBuildRoot env args))) ∧
    (args.clean = false → ∀ p, Event.rmtree p ∉ (mainRoutine env args).2) := by
  have hgen : generatorCheck env args.generator = ([], none) := by
    simp [generatorCheck, hg, pyTruthy]
  have hm1 : ∀ q, Event.rmtree q ∉ (mainRun env args).events := fun q =>
    rmtree_not_mem_runLoop env (effSourceDir env args) (effBuildRoot env args)
      args.generator (mainConfigs env args) q
  constructor
  · intro hcl hpe
    cases hce : (mainConfigs env args).isEmpty with
    | true => simp [mainRoutine, hgen, hd, hcl, hpe, hce]
    | false =>
        cases ha : (mainRun env args).aborted with
        | true => simp [mainRoutine, hgen, hd, hcl, hpe, hce, ha]
        | false =>
            cases hf : (mainRun env args).failures.isEmpty with
            | true => simp [mainRoutine, hgen, hd, hcl, hpe, hce, ha, hf]
            | false => simp [mainRoutine, hgen, hd, hcl, hpe, hce, ha, hf]
  · intro hcl p
    have hclean : (args.clean && env.pathExists (effBuildRoot env args)) = false := by
      simp [hcl]
    cases hce : (mainConfigs env args).isEmpty with
    | true => simp [mainRoutine, hgen, hd, hclean, hce]
    | false =>
        cases ha : (mainRun env args).aborted with
        | true => simp [mainRoutine, hgen, hd, hclean, hce, ha, hm1]
        | false =>
            cases hf : (mainRun env args).failures with
            | nil =>
                have hm2 : ∀ q, Event.rmtree q
                    ∉ summaryEvents (mainRun env args).successes [] := fun q =>
                  rmtree_not_mem_summary (mainRun env args).successes [] q
                simp [mainRoutine, hgen, hd, hclean, hce, ha, hf, hm1, hm2]
            | cons x xs =>
                have hm2 : ∀ q, Event.rmtree q
                    ∉ summaryEvents (mainRun env args).successes (x :: xs) := fun q =>
                  rmtree_not_mem_summary (mainRun env args).successes (x :: xs) q
                simp [mainRoutine, hgen, hd, hclean, hce, ha, hf, hm1, hm2]

/-- Environment where the build root exists and one config is present. -/
def envClean : Env :=
  ⟨id, fun _ => true, fun _ => true, fun _ => [("a", true)], fun _ => none,
   CapOutcome.badJson, fun _ => RunOutcome.exit 0 "ok"⟩

/-- Arguments requesting `--clean`. -/
def argsClean : Args := ⟨[], ".", none, "bld", none, true⟩

/-- Witness for C9 at a concrete cleaning run. -/
theorem C9_witness :
    (argsClean.generator = none) ∧
    (envClean.isDir (effConfigRoot envClean argsClean) = true) ∧
    ((argsClean.clean = true → envClean.pathExists (effBuildRoot envClean argsClean) = true →
       (mainRoutine envClean argsClean).2.head?
         = some (Event.rmtree (effBuildRoot envClean argsClean))) ∧
     (argsClean.clean = false →
        ∀ p, Event.rmtree p ∉ (mainRoutine envClean argsClean).2)) :=
  ⟨rfl, rfl, C9_clean envClean argsClean rfl rfl⟩
